import Mathlib

/-!
Shallow embedding of the autocleaneeg-task-registry "step" mixins and the
algorithm code they delegate to, together with proofs of the specification
claims about them.

Conventions of the embedding:
* Python exceptions are modelled by the `PyExc` structure; a function that can
  raise returns `Except PyExc _`.
* Observable side effects (log lines, file writes, host-attribute mutation,
  metadata updates, calls into external libraries) are collected in a
  `List Effect` returned alongside the result.  The `message(...)` logging
  facade and its `print` fallback are both modelled as `Effect.log`.
* Python numbers are modelled as `ℚ` (the code under test does no
  float-specific reasoning; tolerance claims are stated over `ℚ`).
* External library calls (meegkit dss, FOOOF fitting, Welch PSD, AutoReject)
  are oracles passed in as function arguments returning `Except PyExc _`,
  mirroring that the repository treats them as black boxes that may raise.
-/

namespace TaskRegistry

/-- Decidable equality for `Except`, used to evaluate the embedding on
concrete inputs. -/
instance {ε α : Type} [DecidableEq ε] [DecidableEq α] :
    DecidableEq (Except ε α) := fun a b =>
  match a, b with
  | .ok x, .ok y =>
      if h : x = y then .isTrue (by rw [h]) else .isFalse (by simp [h])
  | .error e, .error f =>
      if h : e = f then .isTrue (by rw [h]) else .isFalse (by simp [h])
  | .ok _, .error _ => .isFalse (by simp)
  | .error _, .ok _ => .isFalse (by simp)

/-- Kinds of Python exceptions observed in the embedded code paths. -/
inductive ExcKind where
  | attributeError
  | typeError
  | valueError
  | runtimeError
  | importError
  | blockDependencyError
  | zeroDivisionError
  | indexError
  | otherError
  deriving DecidableEq, Repr

/-- A Python exception: its class, message, and (for exceptions raised with
`raise ... from e`) the class and message of the chained cause. -/
structure PyExc where
  kind : ExcKind
  msg : String
  cause : Option (ExcKind × String)
  deriving DecidableEq, Repr

/-- Build an exception with no chained cause. -/
def PyExc.plain (k : ExcKind) (m : String) : PyExc := ⟨k, m, none⟩

/-- Build an exception chained from another one (`raise X(m) from e`). -/
def PyExc.chain (k : ExcKind) (m : String) (e : PyExc) : PyExc :=
  ⟨k, m, some (e.kind, e.msg)⟩

/-- Observable side effects of a step invocation. -/
inductive Effect where
  | log (level : String) (msg : String)
  | fileWrite (path : String)
  | attrSet (attr : String)
  | metadataUpdate (step : String)
  | externalCall (fn : String)
  deriving DecidableEq, Repr

/-- An effect that is mere logging (no file I/O, no host mutation, no call
into an external computation). -/
def Effect.isLog : Effect → Bool
  | .log _ _ => true
  | _ => false

/-- An error-level log line. -/
def Effect.isErrorLog : Effect → Bool
  | .log "error" _ => true
  | _ => false

/-- MNE `Raw`-like object: channel count, sampling frequency, and the
(channels × samples) data matrix. -/
structure RawData where
  nchan : Nat
  sfreq : ℚ
  payload : List (List ℚ)
  deriving DecidableEq, Repr

/-! ### Zapline mixin (src/blocks/signal_processing/zapline/mixin.py)

`apply_zapline` reads its parameters with `params.get(k) or default`, so a
configured value that is Python-falsy (absent, `None`, or zero) falls back to
the default.  `orFalsyQ`/`orFalsyI` reproduce that. -/

/-- Python `float(params.get(k) or d)` for a numeric config entry. -/
def orFalsyQ (v : Option ℚ) (d : ℚ) : ℚ :=
  match v with
  | some x => if x = 0 then d else x
  | none => d

/-- Python `int(params.get(k) or d)` for an integer config entry. -/
def orFalsyI (v : Option Int) (d : Int) : Int :=
  match v with
  | some x => if x = 0 then d else x
  | none => d

/-- The `value` sub-dictionary of the `apply_zapline` config entry; `none`
fields model absent keys. -/
structure ZaplineSettings where
  fline : Option ℚ
  nkeep : Option Int
  use_iter : Option Bool
  max_iter : Option Int
  deriving DecidableEq, Repr

/-- Host (`Task`) state consumed by `apply_zapline`: the `self.raw`
attribute and the result of `_check_step_enabled("apply_zapline")`.
A `none` settings field models `settings` being falsy (`settings or {}`). -/
structure ZaplineHost where
  raw : Option RawData
  enabled : Bool
  settings : Option ZaplineSettings
  deriving DecidableEq, Repr

/-- The info dictionary returned by `apply_zapline_dss`. -/
structure ZapInfo where
  method : String
  fline : ℚ
  nkeep : Int
  iterations : Int
  deriving DecidableEq, Repr

/-- Embedding of `ZaplineMixin.apply_zapline` (mixin.py lines 101-257).
`clnp` is the `compute_line_noise_power` call and `dss` the delegated
`apply_zapline_dss` call, both external computations that may raise.
Returns the Python return value (`None` resolves to `Option.none`) together
with the effect trace. -/
def applyZapline
    (host : ZaplineHost)
    (data : Option RawData)
    (stageName : String)
    (clnp : RawData → ℚ → Except PyExc (ℚ × ℚ))
    (dss : RawData → ℚ → Int → Bool → Int → Except PyExc (RawData × ZapInfo)) :
    Except PyExc (Option RawData) × List Effect :=
  -- inst = data if data is not None else getattr(self, "raw", None)
  match data.orElse (fun _ => host.raw) with
  | none =>
      (.ok none, [.log "warning" "Zapline skipped: no raw data available"])
  | some inst =>
      if host.enabled = false then
        (.ok (some inst), [.log "info" "Zapline disabled in configuration"])
      else
        let params := host.settings.getD ⟨none, none, none, none⟩
        let fline := orFalsyQ params.fline 60
        let nkeep := orFalsyI params.nkeep 1
        let useIter := params.use_iter.getD false
        let maxIter := orFalsyI params.max_iter 10
        let effs0 : List Effect :=
          if fline = 50 ∨ fline = 60 then []
          else [.log "warning" "Unusual line frequency (typically 50 or 60 Hz)"]
        let nyquist := inst.sfreq / 2
        if nyquist ≤ fline then
          (.ok (some inst),
            effs0 ++ [.log "error" "Line frequency must be below Nyquist"])
        else
          let effs1 := effs0 ++
            (if nkeep < 1 ∨ 5 < nkeep then
              [.log "warning" "nkeep is unusual (typically 1-2)"] else [])
          if inst.nchan < 2 then
            (.ok (some inst),
              effs1 ++ [.log "error" "Zapline requires at least 2 channels"])
          else
            let effs2 := effs1 ++
              (if inst.nchan < 32 then
                [.log "warning" "Zapline works best with more than 32 channels"]
              else [])
            -- pre-removal line-noise power, failures only warn
            let preOutcome := clnp inst fline
            let powerBefore : Option ℚ :=
              match preOutcome with
              | .ok (p, _) => some p
              | .error _ => none
            let effs3 := effs2 ++ [.externalCall "compute_line_noise_power"] ++
              (match preOutcome with
               | .ok _ => [.log "info" "Pre-Zapline line-noise power"]
               | .error _ =>
                  [.log "warning" "Could not compute pre-Zapline power"])
            let effs4 := effs3 ++ [.log "header" "Applying Zapline..."]
            match dss inst fline nkeep useIter maxIter with
            | .error e =>
                if e.kind = .blockDependencyError then
                  -- BlockDependencyError propagates to the pipeline level
                  (.error e, effs4 ++ [.externalCall "apply_zapline_dss"])
                else
                  -- other exceptions: log and return the original data
                  (.ok (some inst),
                    effs4 ++ [.externalCall "apply_zapline_dss",
                      .log "error" "Zapline failed"])
            | .ok (cleaned, _info) =>
                let effs5 := effs4 ++ [.externalCall "apply_zapline_dss"]
                let effs6 := effs5 ++ [.externalCall "compute_line_noise_power"] ++
                  (match clnp cleaned fline with
                   | .ok (pa, _) =>
                      -- reduction_db = power_before - power_after if power_before else None
                      (match powerBefore with
                       | some pb =>
                          if pb = 0 then
                            [.log "info" "Post-Zapline line-noise power"]
                          else
                            [.log "info" "Post-Zapline line-noise power and reduction"] ++
                              (if pb - pa < 10 then
                                [.log "warning" "Line noise reduction is modest"]
                              else [])
                       | none => [.log "info" "Post-Zapline line-noise power"])
                   | .error _ =>
                      [.log "warning" "Could not compute post-Zapline power"])
                (.ok (some cleaned),
                  effs6 ++ [.attrSet "raw", .fileWrite stageName,
                    .metadataUpdate "step_zapline",
                    .log "success" "Zapline complete"])

/-! ### Wavelet threshold mixin
(src/blocks/signal_processing/wavelet_threshold/mixin.py)

Config entries arrive untyped from YAML, so the wavelet settings model the
malformed shapes the mixin explicitly validates: a level that is a string, a
bandpass that is not a two-element sequence, a threshold scale that is not
numeric, filter kwargs that are not a mapping. -/

/-- The `level` config entry: an integer or a string (only "auto" is legal). -/
inductive CfgLevel where
  | intVal (i : Int)
  | strVal (s : String)
  deriving DecidableEq, Repr

/-- The `bandpass` config entry: explicit `None`, a two-element numeric
sequence, or something that fails two-element unpacking. -/
inductive CfgBandpass where
  | noneVal
  | pair (low high : ℚ)
  | malformed
  deriving DecidableEq, Repr

/-- A config entry coerced with `float(...)`: numeric, or a value whose
coercion raises. -/
inductive CfgNum where
  | num (q : ℚ)
  | nonNumeric
  deriving DecidableEq, Repr

/-- The `filter_kwargs` config entry: `None`, a mapping, or neither. -/
inductive CfgKwargs where
  | noneVal
  | mapping
  | notMapping
  deriving DecidableEq, Repr

/-- The `value` sub-dictionary of the `wavelet_threshold` config entry;
`none` fields model absent keys (each has its own default in the mixin). -/
structure WaveletSettings where
  wavelet : Option String
  level : Option CfgLevel
  threshold_mode : Option String
  is_erp : Option Bool
  bandpass : Option CfgBandpass
  filter_kwargs : Option CfgKwargs
  threshold_scale : Option CfgNum
  psd_fmax : Option CfgNum
  deriving DecidableEq, Repr

/-- The call raised an exception of the given class. -/
def raisedKind {α : Type} : Except PyExc α → Option ExcKind
  | .error e => some e.kind
  | .ok _ => none

/-- Host state consumed by `apply_wavelet_threshold`. -/
structure WaveletHost where
  raw : Option RawData
  enabled : Bool
  settings : Option WaveletSettings
  deriving DecidableEq, Repr

/-- Embedding of `WaveletThresholdMixin.apply_wavelet_threshold`
(mixin.py lines 43-248).  `wt` is the delegated `wavelet_threshold` library
call (not wrapped in try/except by the source) and `report` the combined
outcome of report-path resolution plus `generate_wavelet_report`, whose
failures only warn. -/
def applyWaveletThreshold
    (host : WaveletHost)
    (data : Option RawData)
    (stageName : String)
    (wt : RawData → Except PyExc RawData)
    (report : Except PyExc Unit) :
    Except PyExc (Option RawData) × List Effect :=
  match data.orElse (fun _ => host.raw) with
  | none =>
      (.ok none,
        [.log "warning" "Wavelet thresholding skipped: no raw data available"])
  | some inst =>
      if host.enabled = false then
        (.ok (some inst),
          [.log "info" "Wavelet thresholding disabled in configuration"])
      else
        let params := host.settings.getD
          ⟨none, none, none, none, none, none, none, none⟩
        -- level parsing and validation (lines 55-65)
        let levelRes : Except PyExc (Option Int) :=
          match params.level.getD (.intVal 5) with
          | .strVal s =>
              if s.toLower = "auto" then .ok none
              else .error (.plain .valueError
                "wavelet_threshold level must be a non-negative integer or auto")
          | .intVal i =>
              if i < 0 then
                .error (.plain .valueError
                  "wavelet_threshold level must be non-negative")
              else .ok (some i)
        match levelRes with
        | .error e => (.error e, [])
        | .ok _level =>
          -- threshold_scale coercion and validation (lines 70-81)
          match params.threshold_scale.getD (.num 1) with
          | .nonNumeric =>
              (.error (PyExc.chain .valueError
                  "wavelet_threshold threshold_scale must be a numeric value"
                  (.plain .typeError "could not convert to float")), [])
          | .num scale =>
            if scale ≤ 0 then
              (.error (.plain .valueError
                "wavelet_threshold threshold_scale must be positive"), [])
            else
              -- psd_fmax coercion (lines 83-98): non-positive only warns
              let psdRes : Except PyExc (Option ℚ × List Effect) :=
                match params.psd_fmax with
                | none => .ok (none, [])
                | some .nonNumeric =>
                    .error (PyExc.chain .valueError
                      "wavelet_threshold psd_fmax must be a numeric value when provided"
                      (.plain .typeError "could not convert to float"))
                | some (.num q) =>
                    if q ≤ 0 then
                      .ok (none,
                        [.log "warning"
                          "wavelet_threshold psd_fmax must be positive; ignoring provided value"])
                    else .ok (some q, [])
              match psdRes with
              | .error e => (.error e, [])
              | .ok (_psdFmax, effsP) =>
                -- bandpass unpacking and ordering validation (lines 100-113)
                let bpRes : Except PyExc (Option (ℚ × ℚ)) :=
                  match params.bandpass.getD (.pair 1 30) with
                  | .noneVal => .ok none
                  | .malformed =>
                      .error (PyExc.chain .valueError
                        "wavelet_threshold bandpass must be a two-element sequence"
                        (.plain .typeError "cannot unpack"))
                  | .pair low high =>
                      if high ≤ low then
                        .error (.plain .valueError
                          "wavelet_threshold bandpass low frequency must be less than high frequency")
                      else .ok (some (low, high))
                match bpRes with
                | .error e => (.error e, effsP)
                | .ok _bandpass =>
                  -- filter_kwargs validation (lines 115-120)
                  match params.filter_kwargs.getD .noneVal with
                  | .notMapping =>
                      (.error (.plain .typeError
                        "wavelet_threshold filter_kwargs must be a mapping if provided"),
                        effsP)
                  | _ =>
                    -- baseline = inst.get_data(); delegated call (lines 122-134)
                    let effs1 := effsP ++
                      [.log "header" "Applying wavelet thresholding...",
                        .externalCall "wavelet_threshold"]
                    match wt inst with
                    | .error e => (.error e, effs1)
                    | .ok cleaned =>
                      -- denoising statistics (lines 136-160) are pure reads;
                      -- report generation failures only warn (lines 162-214)
                      let effs2 := effs1 ++
                        (match report with
                         | .ok _ =>
                            [.externalCall "generate_wavelet_report",
                              .fileWrite "wavelet_threshold.pdf"]
                         | .error _ =>
                            [.log "warning" "Wavelet report generation skipped"])
                      (.ok (some cleaned),
                        effs2 ++ [.attrSet "raw", .fileWrite stageName,
                          .metadataUpdate "step_wavelet_threshold",
                          .log "success" "Wavelet thresholding complete"])

/-! ### FOOOF aperiodic fitting
(src/blocks/analysis/fooof_periodic/algorithm.py, `calculate_fooof_aperiodic`
and its inner `process_batch`; src/blocks/analysis/fooof_aperiodic/mixin.py)

A fitted value coming back from FOOOF is a float that can be NaN or
infinite; `FitVal` models exactly that distinction, which is what the
`np.isnan`/`np.isinf` checks branch on. -/

/-- A float fitted by FOOOF: finite, NaN, or infinite. -/
inductive FitVal where
  | fin (q : ℚ)
  | nanV
  | infV
  deriving DecidableEq, Repr

/-- Python `np.isnan(x) or np.isinf(x)`. -/
def FitVal.nonFinite : FitVal → Bool
  | .fin _ => false
  | _ => true

/-- Python `x <= 0` on a float (False for NaN and +inf). -/
def FitVal.isLeZero : FitVal → Bool
  | .fin q => decide (q ≤ 0)
  | _ => false

/-- The categorical outcome tag written into the `status` column of the
aperiodic results table. -/
inductive FitStatus where
  | SUCCESS
  | NAN_PARAMS
  | INVALID_PARAMS
  | INVALID_EXPONENT
  | FITTING_FAILED
  deriving DecidableEq, Repr

/-- One row of the aperiodic results table (algorithm.py dict literals in
`process_batch`); the `subject` column added afterwards is constant and
omitted. -/
structure FooofRow where
  vertex : Nat
  offset : FitVal
  knee : FitVal
  exponent : FitVal
  r_squared : FitVal
  errVal : FitVal
  status : FitStatus
  deriving DecidableEq, Repr

/-- What `FOOOFGroup.fit` followed by the three `get_params` reads delivers
for one batch: per-vertex aperiodic parameter rows (2 columns in fixed mode,
3 in knee mode, as produced by the library), r-squared and error values. -/
structure FitOutcome where
  aperiodicParams : List (List FitVal)
  rSquared : List FitVal
  errs : List FitVal
  deriving DecidableEq, Repr

/-- The all-NaN row recorded when both fitting attempts raise
(algorithm.py lines 256-270). -/
def dummyFailedRow (v : Nat) : FooofRow :=
  ⟨v, .nanV, .nanV, .nanV, .nanV, .nanV, .FITTING_FAILED⟩

/-- Python `np.any(~fg.get_params("aperiodic_params")[:, 0].astype(bool))`
(algorithm.py line 246): an offset of exactly 0.0 is falsy and marks the fit
as failed; NaN and inf are truthy. -/
def anyOffsetFalsy (fg : FitOutcome) : Bool :=
  fg.aperiodicParams.any fun row =>
    match row.head? with
    | some (.fin q) => decide (q = 0)
    | some .nanV => false
    | some .infV => false
    | none => false

/-- Classification of one vertex of a fitted batch (algorithm.py lines
277-348): the NaN/inf check, then the mode-specific parameter extraction and
validation.  Out-of-range indexing of the parameter array is a Python
`IndexError`, which `process_batch` does not catch. -/
def processVertex (mode : String) (fg : FitOutcome) (i : Nat) (v : Nat) :
    Except PyExc FooofRow :=
  match fg.aperiodicParams.get? i, fg.rSquared.get? i, fg.errs.get? i with
  | some ps, some r2, some er =>
      if ps.any FitVal.nonFinite then
        .ok ⟨v, .nanV, .nanV, .nanV, .nanV, .nanV, .NAN_PARAMS⟩
      else
        if mode = "knee" then
          match ps.get? 0, ps.get? 1, ps.get? 2 with
          | some off, some kn, some ex =>
              if kn.isLeZero || ex.isLeZero then
                .ok ⟨v, .nanV, .nanV, .nanV, .nanV, .nanV, .INVALID_PARAMS⟩
              else
                .ok ⟨v, off, kn, ex, r2, er, .SUCCESS⟩
          | _, _, _ =>
              .error (.plain .indexError "aperiodic_params index out of range")
        else
          match ps.get? 0, ps.get? 1 with
          | some off, some ex =>
              if ex.isLeZero then
                .ok ⟨v, .nanV, .nanV, .nanV, .nanV, .nanV, .INVALID_EXPONENT⟩
              else
                .ok ⟨v, off, .nanV, ex, r2, er, .SUCCESS⟩
          | _, _ =>
              .error (.plain .indexError "aperiodic_params index out of range")
  | _, _, _ => .error (.plain .indexError "get_params index out of range")

/-- The per-vertex result loop of `process_batch` (`for i, vertex_idx in
enumerate(vertices)`). -/
def extractRows (mode : String) (fg : FitOutcome) :
    Nat → List Nat → Except PyExc (List FooofRow)
  | _, [] => .ok []
  | i, v :: rest =>
      match processVertex mode fg i v with
      | .error e => .error e
      | .ok row =>
          match extractRows mode fg (i + 1) rest with
          | .error e => .error e
          | .ok rows => .ok (row :: rows)

/-- Embedding of `calculate_fooof_aperiodic.process_batch` (algorithm.py
lines 234-354).  `primary` and `fallback` are the outcomes of the two
`FOOOFGroup(...).fit(...)` attempts, external calls that may raise; when the
primary fit succeeds but reports a falsy offset the code retries with the
fallback parameter set, and when both attempts raise every vertex of the
batch gets a FITTING_FAILED dummy row. -/
def processBatch (mode : String) (vertices : List Nat)
    (primary fallback : Except PyExc FitOutcome) :
    Except PyExc (List FooofRow) :=
  let chosen : Option FitOutcome :=
    match primary with
    | .ok fg =>
        if anyOffsetFalsy fg then
          match fallback with
          | .ok fg2 => some fg2
          | .error _ => none
        else some fg
    | .error _ =>
        match fallback with
        | .ok fg2 => some fg2
        | .error _ => none
  match chosen with
  | none => .ok (vertices.map dummyFailedRow)
  | some fg => extractRows mode fg 0 vertices

/-! ### FOOOF aperiodic mixin
(src/blocks/analysis/fooof_aperiodic/mixin.py, `apply_fooof_aperiodic`) -/

/-- Source-estimate container (`mne.SourceEstimate` as the mixin uses it). -/
structure StcData where
  dataRows : List (List ℚ)
  sfreq : ℚ
  deriving DecidableEq, Repr

/-- The `stc` argument or `self.stc` attribute value: a genuine source
estimate, or an object of some other type (caught by the isinstance check). -/
inductive FooofInput where
  | stcVal (s : StcData)
  | badObj (tyName : String)
  deriving DecidableEq, Repr

/-- The `value` sub-dictionary of the `apply_fooof_aperiodic` config entry. -/
structure FooofCfgParams where
  fmin : Option ℚ
  fmax : Option ℚ
  n_jobs : Option Int
  aperiodic_mode : Option String
  deriving DecidableEq, Repr

/-- The relevant keys of the task-level `self.config` dictionary. -/
structure FooofTaskConfig where
  output_dir : Option String
  subject_id : Option String
  deriving DecidableEq, Repr

/-- Host state consumed by `apply_fooof_aperiodic`.  `hasCheckStep` models
`hasattr(self, "_check_step_enabled")`; `stc = none` models the attribute
being absent or `None`; `file_path` stands for `Path(self.file_path).stem`
resolution, modelled as the path string itself. -/
structure FooofHost where
  hasCheckStep : Bool
  enabled : Bool
  configValue : Option FooofCfgParams
  stc : Option FooofInput
  hasUpdateMetadata : Bool
  config : Option FooofTaskConfig
  file_path : Option String
  deriving DecidableEq, Repr

/-- Embedding of `FOOOFAnalysisMixin.apply_fooof_aperiodic` (mixin.py lines
115-258).  `psdCalc` and `fooofCalc` are the two delegated computations
(`calculate_vertex_psd_for_fooof`, `calculate_fooof_aperiodic`); any
exception inside the try block is logged and re-raised as a RuntimeError
chained from the original.  The `message(...)`/`print` logging split is
modelled as plain log effects.  An `Option.none` result models the
`(None, None)` sentinel of the disabled path. -/
def applyFooofAperiodic
    (host : FooofHost)
    (stcArg : Option FooofInput)
    (fmin fmax : ℚ) (nJobs : Int) (mode : String)
    (psdCalc : StcData → ℚ → ℚ → Int → Option String → String →
      Except PyExc (StcData × String))
    (fooofCalc : StcData → String → Option String → Int → String →
      Except PyExc (List FooofRow × String)) :
    Except PyExc (Option (List FooofRow × String)) × List Effect :=
  if host.hasCheckStep ∧ host.enabled = false then
    (.ok none, [.log "info" "FOOOF aperiodic step is disabled"])
  else
    -- parameter merge, config values taking precedence (lines 126-132)
    let merged : ℚ × ℚ × Int × String :=
      if host.hasCheckStep then
        match host.configValue with
        | some cv =>
            (cv.fmin.getD fmin, cv.fmax.getD fmax, cv.n_jobs.getD nJobs,
              cv.aperiodic_mode.getD mode)
        | none => (fmin, fmax, nJobs, mode)
      else (fmin, fmax, nJobs, mode)
    let fmin := merged.1
    let fmax := merged.2.1
    let nJobs := merged.2.2.1
    let mode := merged.2.2.2
    -- input resolution (lines 134-142): raised before the try block,
    -- hence not wrapped in RuntimeError
    match stcArg.orElse (fun _ => host.stc) with
      | none =>
          (.error (.plain .attributeError
            "No source estimates found. Apply source localization first (self.stc must exist)."),
            [])
      | some input =>
        match input with
        | .badObj ty =>
            (.error (.plain .typeError
              ("Data must be mne.SourceEstimate, got " ++ ty)), [])
        | .stcVal s =>
          -- try block (lines 148-258)
          let effs0 : List Effect :=
            [.log "header" "Calculating FOOOF aperiodic parameters",
              .log "info" "Frequency range, mode and n_jobs"]
          -- output_dir / subject_id resolution (lines 162-182)
          let cfgDir := host.config.bind (fun c => c.output_dir)
          let cfgSubj := host.config.bind (fun c => c.subject_id)
          let dirResolved : Option String × List Effect :=
            match cfgDir, host.file_path with
            | some d, _ => (some d, effs0)
            | none, some _ =>
                (some "derivatives/fooof",
                  effs0 ++ [.fileWrite "mkdir derivatives/fooof"])
            | none, none => (none, effs0)
          let outputDir := dirResolved.1
          let effs1 := dirResolved.2
          let subj0 := cfgSubj.getD "unknown_subject"
            let subjectId :=
              if subj0 = "unknown_subject" then host.file_path.getD subj0
              else subj0
            let effs2 := effs1 ++
              [.log "info" "Step 1: Calculating vertex-level PSD...",
                .externalCall "calculate_vertex_psd_for_fooof"]
            match psdCalc s fmin fmax nJobs outputDir subjectId with
            | .error e =>
                (.error (PyExc.chain .runtimeError
                    ("Failed to calculate FOOOF aperiodic: " ++ e.msg) e),
                  effs2 ++ [.log "error"
                    ("Error during FOOOF aperiodic analysis: " ++ e.msg)])
            | .ok (stcPsd, _psdPath) =>
              let effs3 := effs2 ++
                [.log "info" "Step 2: Fitting FOOOF models...",
                  .externalCall "calculate_fooof_aperiodic"]
              match fooofCalc stcPsd subjectId outputDir nJobs mode with
              | .error e =>
                  (.error (PyExc.chain .runtimeError
                      ("Failed to calculate FOOOF aperiodic: " ++ e.msg) e),
                    effs3 ++ [.log "error"
                      ("Error during FOOOF aperiodic analysis: " ++ e.msg)])
              | .ok (df, filePath) =>
                -- completion statistics (lines 213-216); an empty frame has
                -- no status column, so indexing it raises inside the try
                if df.length = 0 then
                  let e := PyExc.plain .otherError "status"
                  (.error (PyExc.chain .runtimeError
                      ("Failed to calculate FOOOF aperiodic: " ++ e.msg) e),
                    effs3 ++ [.log "error"
                      ("Error during FOOOF aperiodic analysis: " ++ e.msg)])
                else
                  let effs4 := effs3 ++
                    [.log "success" "FOOOF aperiodic complete",
                      .log "info" ("Saved to: " ++ filePath)]
                  let effs5 := effs4 ++
                    (if host.hasUpdateMetadata then
                      [.metadataUpdate "step_apply_fooof_aperiodic"]
                    else [])
                  (.ok (some (df, filePath)),
                    effs5 ++ [.attrSet "fooof_aperiodic_df",
                      .attrSet "fooof_aperiodic_file", .attrSet "stc_psd"])

/-! ### AutoReject mixin
(src/blocks/signal_processing/autoreject/mixin.py, `apply_autoreject`)

The AutoReject library is an external collaborator; its documented behavior
is that `fit_transform` drops the epochs its rejection log flags bad (and
interpolates channels within the kept ones), so the cleaning step is
modelled by filtering the input epochs with a bad-epoch mask. -/

/-- One epoch's data. -/
abbrev EpochItem := List ℚ

/-- The `epochs` argument or `self.epochs` value: an MNE Epochs object or an
object of some other type (the isinstance check handles `None` this way
too). -/
inductive ARInput where
  | epochsVal (e : List EpochItem)
  | otherObj (tyName : String)
  deriving DecidableEq, Repr

/-- The `apply_autoreject` config entry (read without a `value` nesting in
this mixin). -/
structure ARCfg where
  n_interpolate : Option (List Int)
  consensus : Option (List ℚ)
  n_jobs : Option Int
  deriving DecidableEq, Repr

/-- Host state consumed by `apply_autoreject`.  `epochsAttr = none` models
the `self.epochs` attribute being absent (an AttributeError on access). -/
structure ARHost where
  enabled : Bool
  configValue : Option ARCfg
  epochsAttr : Option ARInput
  hasRunId : Bool
  deriving DecidableEq, Repr

/-- Python 3 `round(x)` (banker's rounding, ties to even). -/
def pyRound (x : ℚ) : ℤ :=
  let f := ⌊x⌋
  let frac := x - f
  if frac < 1 / 2 then f
  else if 1 / 2 < frac then f + 1
  else if f % 2 = 0 then f else f + 1

/-- Python `round(x, 2)`. -/
def round2 (x : ℚ) : ℚ := (pyRound (x * 100) : ℚ) / 100

/-- `epochs[~reject_log.bad_epochs]`: keep the epochs whose mask entry is
false. -/
def keepByMask {α : Type} : List α → List Bool → List α
  | [], _ => []
  | _ :: _, [] => []
  | x :: xs, b :: bs =>
      if b then keepByMask xs bs else x :: keepByMask xs bs

/-- The rejection statistics the mixin writes into its metadata record
(mixin.py lines 139-167; the epoch-timing fields derived from
`epochs.times` are omitted). -/
structure ARMeta where
  initial_epochs : Nat
  final_epochs : Nat
  rejected_epochs : ℤ
  rejection_percent : ℚ
  n_jobs : Int
  deriving DecidableEq, Repr

/-- Embedding of `AutoRejectEpochsMixin.apply_autoreject` (mixin.py lines
98-231).  `badMask` is the rejection log the external AutoReject fit
produces, `fitRaises` an exception from `ar.fit_transform` when `some`, and
`report` the outcome of the separately-guarded PDF report generation.  The
returned pair carries the cleaned epochs together with the metadata record. -/
def applyAutoreject
    (host : ARHost)
    (epochsArg : Option ARInput)
    (nInterpolate : Option (List Int))
    (consensus : Option (List ℚ))
    (nJobs : Int)
    (stageName : String)
    (badMask : List Bool)
    (fitRaises : Option PyExc)
    (report : Except PyExc Unit) :
    Except PyExc (Option (List EpochItem × ARMeta)) × List Effect :=
  if host.enabled = false then
    (.ok none, [.log "info" "AutoReject step is disabled in configuration"])
  else
    let mergedCfg : Option (List Int) × Option (List ℚ) × Int :=
      match host.configValue with
      | some cv =>
          (cv.n_interpolate.orElse (fun _ => nInterpolate),
            cv.consensus.orElse (fun _ => consensus),
            cv.n_jobs.getD nJobs)
      | none => (nInterpolate, consensus, nJobs)
    let nJobs := mergedCfg.2.2
    match epochsArg.orElse (fun _ => host.epochsAttr) with
      | none =>
          (.error (.plain .attributeError
            "object has no attribute epochs"), [])
      | some (.otherObj _) =>
          (.error (.plain .typeError
            "Data must be an MNE Epochs object for AutoReject"), [])
      | some (.epochsVal es) =>
        let effs0 : List Effect :=
          [.log "header" "Applying AutoReject for artifact rejection",
            .externalCall "AutoReject.fit_transform"]
        match fitRaises with
        | some e =>
            (.error (PyExc.chain .runtimeError
                ("Failed to apply AutoReject: " ++ e.msg) e),
              effs0 ++ [.log "error" ("Error during AutoReject: " ++ e.msg)])
        | none =>
          let clean := keepByMask es badMask
          let before := es.length
          let after := clean.length
          let rejected : ℤ := (before : ℤ) - (after : ℤ)
          let percent : ℚ :=
            if 0 < before then round2 ((rejected : ℚ) / (before : ℚ) * 100)
            else 0
          let meta : ARMeta := ⟨before, after, rejected, percent, nJobs⟩
          let effs1 := effs0 ++
            [.log "info" "Artifacts rejected",
              .metadataUpdate "step_apply_autoreject"]
          let effs2 := effs1 ++
            (if host.hasRunId then [.attrSet "epochs"] else [])
          let effs3 := effs2 ++ [.fileWrite stageName]
          let effs4 := effs3 ++
            (match report with
             | .ok _ =>
                [.externalCall "generate_autoreject_report",
                  .fileWrite "autoreject.pdf",
                  .log "success" "AutoReject report saved"]
             | .error _ =>
                [.log "warning" "AutoReject report generation skipped"])
          (.ok (some (clean, meta)), effs4)

/-! ### Source PSD input resolution
(src/blocks/analysis/source_psd/mixin.py, `apply_source_psd` lines 153-222) -/

/-- The possible shapes of source data the PSD step accepts. -/
inductive SourceData where
  | roiRaw (r : RawData)
  | roiEpochs (e : List EpochItem)
  | stcSingle (s : StcData)
  | stcListVal (l : List StcData)
  | otherObj (tyName : String)
  deriving DecidableEq, Repr

/-- `isinstance(x, (mne.SourceEstimate, list))`. -/
def SourceData.isStcType : SourceData → Bool
  | .stcSingle _ => true
  | .stcListVal _ => true
  | _ => false

/-- The three host attributes `apply_source_psd` probes; `none` models the
attribute being absent or `None` (the code tests
`hasattr(self, a) and getattr(self, a) is not None`). -/
structure PsdHost where
  source_eeg : Option SourceData
  stc_list : Option SourceData
  stc : Option SourceData
  deriving DecidableEq, Repr

/-- Embedding of the input-resolution and type-validation prefix of
`SourcePSDMixin.apply_source_psd` (mixin.py lines 153-222): explicit
argument first, otherwise `self.source_eeg`, then `self.stc_list`, then
`self.stc`, raising AttributeError when none is available; the second
returned component is `use_roi_mode`.  Vertex-mode inputs are then
type-checked. -/
def resolveSourcePsdInput (host : PsdHost) (stcListArg : Option SourceData) :
    Except PyExc (SourceData × Bool) :=
  let resolved : Except PyExc (SourceData × Bool) :=
    match stcListArg with
    | none =>
        match host.source_eeg with
        | some v => .ok (v, true)
        | none =>
          match host.stc_list with
          | some v => .ok (v, false)
          | none =>
            match host.stc with
            | some v => .ok (v, false)
            | none =>
                .error (.plain .attributeError
                  "No source data found. Apply source localization first (v2.0.1: self.source_eeg, or v1.0.0: self.stc/self.stc_list must exist).")
    | some v =>
        match v with
        | .roiRaw _ => .ok (v, true)
        | .roiEpochs _ => .ok (v, true)
        | .stcSingle _ => .ok (v, false)
        | .stcListVal _ => .ok (v, false)
        | .otherObj ty =>
            .error (.plain .typeError
              ("Data must be Raw, Epochs, SourceEstimate, or list, got " ++ ty))
  match resolved with
  | .error e => .error e
  | .ok (v, roi) =>
      if roi then .ok (v, roi)
      else if v.isStcType then .ok (v, roi)
      else .error (.plain .typeError
        "Data must be mne.SourceEstimate or list, got another type")

/-! ### Zapline algorithm
(src/blocks/signal_processing/zapline/algorithm.py, `apply_zapline_dss`)

To make the no-mutation claim meaningful, Raw objects live on an explicit
heap (a list indexed by object id): `raw.get_data()` reads, `raw.copy()`
allocates a fresh object, and `raw_clean._data = out.T` writes to the fresh
object's id.  The function returns the final heap alongside its result, so
the original object's cell can be inspected on every path. -/

/-- Write a new data payload into the heap cell `i`
(`raw_clean._data = out.T`). -/
def heapSetPayload : List RawData → Nat → List (List ℚ) → List RawData
  | [], _, _ => []
  | o :: rest, 0, d => ⟨o.nchan, o.sfreq, d⟩ :: rest
  | o :: rest, n + 1, d => o :: heapSetPayload rest n d

/-- Embedding of `apply_zapline_dss` (algorithm.py lines 87-146).
`meegkitOk` models the meegkit import, `dssLine`/`dssLineIter` the two
library entry points (taking the (samples × channels) data and returning the
cleaned data, plus an iteration count for the iterative variant). -/
def applyZaplineDss
    (h : List RawData) (rawId : Nat)
    (fline : ℚ) (nkeep : Int) (useIter : Bool) (_maxIter : Int)
    (meegkitOk : Bool)
    (dssLine : List (List ℚ) → ℚ → ℚ → Int → List (List ℚ))
    (dssLineIter : List (List ℚ) → ℚ → ℚ → Int → List (List ℚ) × Int) :
    List RawData × Except PyExc (Nat × ZapInfo) :=
  if meegkitOk = false then
    (h, .error (.plain .importError
      "meegkit is required for Zapline. Install with: pip install meegkit"))
  else
    match h.get? rawId with
    | none =>
        -- modelling artifact: a Python object reference is always valid
        (h, .error (.plain .otherError "dangling object reference"))
    | some raw =>
      if raw.nchan < 2 then
        (h, .error (.plain .valueError
          "Zapline requires at least 2 channels. DSS exploits spatial structure of noise."))
      else
        let data := raw.payload.transpose
        let sfreq := raw.sfreq
        if sfreq / 2 ≤ fline then
          (h, .error (.plain .valueError
            "Line frequency must be below Nyquist frequency"))
        else
          let fitted : List (List ℚ) × Int :=
            if useIter then dssLineIter data fline sfreq nkeep
            else (dssLine data fline sfreq nkeep, 1)
          let newId := h.length
          let h1 := h ++ [raw]
          let h2 := heapSetPayload h1 newId fitted.1.transpose
          (h2, .ok (newId,
            ⟨if useIter then "dss_line_iter" else "dss_line",
              fline, nkeep, fitted.2⟩))

/-! ## Helper lemmas -/

/-- Writing heap cell `i` leaves every other cell unchanged. -/
theorem heapSetPayload_lookup_ne {l : List RawData} {i j : Nat}
    {d : List (List ℚ)} (hne : j ≠ i) :
    (heapSetPayload l i d).get? j = l.get? j := by
  induction l generalizing i j with
  | nil => simp [heapSetPayload]
  | cons o rest ih =>
    cases i with
    | zero =>
      cases j with
      | zero => exact absurd rfl hne
      | succ k => simp [heapSetPayload]
    | succ n =>
      cases j with
      | zero => simp [heapSetPayload]
      | succ k => simpa [heapSetPayload] using ih (by omega)

/-- An exception inside `calculate_vertex_psd_for_fooof` is logged and
re-raised as a RuntimeError chained from it (mixin.py lines 252-258). -/
theorem fooof_psd_failure_wrapped (host : FooofHost)
    (stcArg : Option FooofInput) (s : StcData)
    (fmin fmax : ℚ) (nJobs : Int) (mode : String)
    (psdCalc : StcData → ℚ → ℚ → Int → Option String → String →
      Except PyExc (StcData × String))
    (fooofCalc : StcData → String → Option String → Int → String →
      Except PyExc (List FooofRow × String))
    (e : PyExc)
    (hEn : host.hasCheckStep = false ∨ host.enabled = true)
    (hstc : stcArg.orElse (fun _ => host.stc) = some (.stcVal s))
    (hpsd : ∀ a b c d f g, psdCalc a b c d f g = .error e) :
    (applyFooofAperiodic host stcArg fmin fmax nJobs mode psdCalc fooofCalc).1
      = .error (PyExc.chain .runtimeError
          ("Failed to calculate FOOOF aperiodic: " ++ e.msg) e) ∧
    (applyFooofAperiodic host stcArg fmin fmax nJobs mode psdCalc
        fooofCalc).2.any Effect.isErrorLog = true := by
  have hcond : ¬(host.hasCheckStep ∧ host.enabled = false) := by
    rcases hEn with h | h <;> simp [h]
  unfold applyFooofAperiodic
  rw [if_neg hcond, hstc]
  dsimp only
  rw [hpsd]
  simp [Effect.isErrorLog]

/-- An exception inside `calculate_fooof_aperiodic` is likewise re-raised as
a chained RuntimeError. -/
theorem fooof_fit_failure_wrapped (host : FooofHost)
    (stcArg : Option FooofInput) (s sp : StcData) (pp : String)
    (fmin fmax : ℚ) (nJobs : Int) (mode : String)
    (psdCalc : StcData → ℚ → ℚ → Int → Option String → String →
      Except PyExc (StcData × String))
    (fooofCalc : StcData → String → Option String → Int → String →
      Except PyExc (List FooofRow × String))
    (e : PyExc)
    (hEn : host.hasCheckStep = false ∨ host.enabled = true)
    (hstc : stcArg.orElse (fun _ => host.stc) = some (.stcVal s))
    (hpsd : ∀ a b c d f g, psdCalc a b c d f g = .ok (sp, pp))
    (hff : ∀ a b c d f, fooofCalc a b c d f = .error e) :
    (applyFooofAperiodic host stcArg fmin fmax nJobs mode psdCalc fooofCalc).1
      = .error (PyExc.chain .runtimeError
          ("Failed to calculate FOOOF aperiodic: " ++ e.msg) e) := by
  have hcond : ¬(host.hasCheckStep ∧ host.enabled = false) := by
    rcases hEn with h | h <;> simp [h]
  unfold applyFooofAperiodic
  rw [if_neg hcond, hstc]
  dsimp only
  rw [hpsd]
  dsimp only
  rw [hff]

/-- A non-BlockDependencyError raised by `apply_zapline_dss` is caught,
logged, and the original raw object is returned (mixin.py lines 179-189). -/
theorem zapline_dss_failure_swallowed (host : ZaplineHost)
    (data : Option RawData) (stage : String)
    (clnp : RawData → ℚ → Except PyExc (ℚ × ℚ))
    (dss : RawData → ℚ → Int → Bool → Int → Except PyExc (RawData × ZapInfo))
    (r : RawData) (e : PyExc)
    (h1 : host.enabled = true)
    (h2 : data.orElse (fun _ => host.raw) = some r)
    (h3 : orFalsyQ (host.settings.getD ⟨none, none, none, none⟩).fline 60
      < r.sfreq / 2)
    (h4 : ¬ r.nchan < 2)
    (hdss : ∀ a b c d f, dss a b c d f = .error e)
    (hek : e.kind ≠ .blockDependencyError) :
    (applyZapline host data stage clnp dss).1 = .ok (some r) ∧
    (applyZapline host data stage clnp dss).2.any Effect.isErrorLog = true := by
  unfold applyZapline
  rw [h2]
  dsimp only
  rw [h1]
  simp only [Bool.true_eq_false, if_false]
  rw [if_neg (not_le.mpr h3), if_neg h4, hdss]
  dsimp only
  rw [if_neg hek]
  simp [Effect.isErrorLog]

/-- A BlockDependencyError raised by `apply_zapline_dss` propagates to the
caller unwrapped (mixin.py lines 182-185). -/
theorem zapline_blockdep_propagates (host : ZaplineHost)
    (data : Option RawData) (stage : String)
    (clnp : RawData → ℚ → Except PyExc (ℚ × ℚ))
    (dss : RawData → ℚ → Int → Bool → Int → Except PyExc (RawData × ZapInfo))
    (r : RawData) (e : PyExc)
    (h1 : host.enabled = true)
    (h2 : data.orElse (fun _ => host.raw) = some r)
    (h3 : orFalsyQ (host.settings.getD ⟨none, none, none, none⟩).fline 60
      < r.sfreq / 2)
    (h4 : ¬ r.nchan < 2)
    (hdss : ∀ a b c d f, dss a b c d f = .error e)
    (hek : e.kind = .blockDependencyError) :
    (applyZapline host data stage clnp dss).1 = .error e := by
  unfold applyZapline
  rw [h2]
  dsimp only
  rw [h1]
  simp only [Bool.true_eq_false, if_false]
  rw [if_neg (not_le.mpr h3), if_neg h4, hdss]
  dsimp only
  rw [if_pos hek]

/-- A disabled zapline step returns the original input and only logs. -/
theorem zapline_disabled_returns_input (host : ZaplineHost)
    (data : Option RawData) (stage : String)
    (clnp : RawData → ℚ → Except PyExc (ℚ × ℚ))
    (dss : RawData → ℚ → Int → Bool → Int → Except PyExc (RawData × ZapInfo))
    (r : RawData)
    (h1 : host.enabled = false)
    (h2 : data.orElse (fun _ => host.raw) = some r) :
    applyZapline host data stage clnp dss
      = (.ok (some r), [.log "info" "Zapline disabled in configuration"]) := by
  unfold applyZapline
  rw [h2]
  dsimp only
  rw [h1]
  simp

/-- A disabled wavelet-threshold step returns the original input and only
logs. -/
theorem wavelet_disabled_returns_input (host : WaveletHost)
    (data : Option RawData) (stage : String)
    (wt : RawData → Except PyExc RawData) (report : Except PyExc Unit)
    (r : RawData)
    (h1 : host.enabled = false)
    (h2 : data.orElse (fun _ => host.raw) = some r) :
    applyWaveletThreshold host data stage wt report
      = (.ok (some r),
          [.log "info" "Wavelet thresholding disabled in configuration"]) := by
  unfold applyWaveletThreshold
  rw [h2]
  dsimp only
  rw [h1]
  simp

/-- A disabled FOOOF aperiodic step returns the `(None, None)` sentinel and
only logs. -/
theorem fooof_disabled_returns_sentinel (host : FooofHost)
    (stcArg : Option FooofInput)
    (fmin fmax : ℚ) (nJobs : Int) (mode : String)
    (psdCalc : StcData → ℚ → ℚ → Int → Option String → String →
      Except PyExc (StcData × String))
    (fooofCalc : StcData → String → Option String → Int → String →
      Except PyExc (List FooofRow × String))
    (h1 : host.hasCheckStep = true) (h2 : host.enabled = false) :
    applyFooofAperiodic host stcArg fmin fmax nJobs mode psdCalc fooofCalc
      = (.ok none, [.log "info" "FOOOF aperiodic step is disabled"]) := by
  unfold applyFooofAperiodic
  rw [if_pos (by simp [h1, h2])]

/-- A disabled AutoReject step returns the `None` sentinel and only logs. -/
theorem autoreject_disabled_returns_sentinel (host : ARHost)
    (epochsArg : Option ARInput)
    (ni : Option (List Int)) (cons : Option (List ℚ)) (nJobs : Int)
    (stage : String) (badMask : List Bool) (fitRaises : Option PyExc)
    (report : Except PyExc Unit)
    (h1 : host.enabled = false) :
    applyAutoreject host epochsArg ni cons nJobs stage badMask fitRaises report
      = (.ok none,
          [.log "info" "AutoReject step is disabled in configuration"]) := by
  unfold applyAutoreject
  rw [if_pos h1]

/-- With no explicit stc and no `self.stc`, the FOOOF aperiodic step raises
AttributeError before any side effect. -/
theorem fooof_missing_stc_raises (host : FooofHost)
    (fmin fmax : ℚ) (nJobs : Int) (mode : String)
    (psdCalc : StcData → ℚ → ℚ → Int → Option String → String →
      Except PyExc (StcData × String))
    (fooofCalc : StcData → String → Option String → Int → String →
      Except PyExc (List FooofRow × String))
    (hEn : host.hasCheckStep = false ∨ host.enabled = true)
    (hstc : host.stc = none) :
    applyFooofAperiodic host none fmin fmax nJobs mode psdCalc fooofCalc
      = (.error (.plain .attributeError
          "No source estimates found. Apply source localization first (self.stc must exist)."),
        []) := by
  have hcond : ¬(host.hasCheckStep ∧ host.enabled = false) := by
    rcases hEn with h | h <;> simp [h]
  unfold applyFooofAperiodic
  rw [if_neg hcond]
  simp [hstc]

/-- With no explicit raw and no `self.raw`, zapline logs a warning and
returns `None` without raising. -/
theorem zapline_missing_raw_returns_none (host : ZaplineHost) (stage : String)
    (clnp : RawData → ℚ → Except PyExc (ℚ × ℚ))
    (dss : RawData → ℚ → Int → Bool → Int → Except PyExc (RawData × ZapInfo))
    (hraw : host.raw = none) :
    applyZapline host none stage clnp dss
      = (.ok none,
          [.log "warning" "Zapline skipped: no raw data available"]) := by
  unfold applyZapline
  simp [hraw, Option.orElse]

/-- With no explicit raw and no `self.raw`, wavelet thresholding logs a
warning and returns `None` without raising. -/
theorem wavelet_missing_raw_returns_none (host : WaveletHost) (stage : String)
    (wt : RawData → Except PyExc RawData) (report : Except PyExc Unit)
    (hraw : host.raw = none) :
    applyWaveletThreshold host none stage wt report
      = (.ok none,
          [.log "warning" "Wavelet thresholding skipped: no raw data available"]) := by
  unfold applyWaveletThreshold
  simp [hraw, Option.orElse]

set_option maxHeartbeats 2000000 in
/-- A bandpass configured with low ≥ high makes the wavelet step raise a
ValueError before any external call, file write or host mutation. -/
theorem wavelet_bandpass_guard (host : WaveletHost) (data : Option RawData)
    (stage : String)
    (wt : RawData → Except PyExc RawData) (report : Except PyExc Unit)
    (r : RawData) (low high : ℚ)
    (h1 : host.enabled = true)
    (h2 : data.orElse (fun _ => host.raw) = some r)
    (hbp : (host.settings.getD
        ⟨none, none, none, none, none, none, none, none⟩).bandpass.getD
        (.pair 1 30) = .pair low high)
    (hlh : high ≤ low) :
    raisedKind (applyWaveletThreshold host data stage wt report).1
      = some .valueError ∧
    (applyWaveletThreshold host data stage wt report).2.all Effect.isLog
      = true := by
  unfold applyWaveletThreshold
  rw [h2]
  dsimp only
  rw [h1]
  simp only [Bool.true_eq_false, if_false]
  rcases hS : host.settings with _ | ⟨w, lv, tm, ie, bp, fk, ts, pf⟩
  · try rw [hS] at hbp
    simp only [Option.getD_none] at hbp
    rcases hbp with ⟨h30, h1b⟩
    exact absurd hlh (by norm_num)
  · try rw [hS] at hbp
    simp only [Option.getD_some] at hbp ⊢
    rcases lv with _ | (i | sl) <;> rcases ts with _ | (q | _) <;>
      rcases pf with _ | (q2 | _) <;>
      simp_all [raisedKind, Effect.isLog, PyExc.chain, PyExc.plain] <;>
      (repeat' split) <;>
      simp_all [raisedKind, Effect.isLog, PyExc.chain, PyExc.plain] <;>
      (try linarith)
    all_goals
      (try split_ifs at *) <;>
        (try injections) <;>
        subst_vars <;>
        (first | rfl | simp [raisedKind, Effect.isLog])

set_option maxHeartbeats 2000000 in
/-- A threshold scale ≤ 0 makes the wavelet step raise a ValueError before
any external call, file write or host mutation. -/
theorem wavelet_scale_guard (host : WaveletHost) (data : Option RawData)
    (stage : String)
    (wt : RawData → Except PyExc RawData) (report : Except PyExc Unit)
    (r : RawData) (scale : ℚ)
    (h1 : host.enabled = true)
    (h2 : data.orElse (fun _ => host.raw) = some r)
    (hts : (host.settings.getD
        ⟨none, none, none, none, none, none, none, none⟩).threshold_scale.getD
        (.num 1) = .num scale)
    (hsc : scale ≤ 0) :
    raisedKind (applyWaveletThreshold host data stage wt report).1
      = some .valueError ∧
    (applyWaveletThreshold host data stage wt report).2.all Effect.isLog
      = true := by
  unfold applyWaveletThreshold
  rw [h2]
  dsimp only
  rw [h1]
  simp only [Bool.true_eq_false, if_false]
  rcases hS : host.settings with _ | ⟨w, lv, tm, ie, bp, fk, ts, pf⟩
  · try rw [hS] at hts
    simp only [Option.getD_none] at hts
    rcases hts with ⟨h1s⟩
    exact absurd hsc (by norm_num)
  · try rw [hS] at hts
    simp only [Option.getD_some] at hts ⊢
    rcases lv with _ | (i | sl) <;>
      simp_all [raisedKind, Effect.isLog, PyExc.chain, PyExc.plain] <;>
      (repeat' split) <;>
      simp_all [raisedKind, Effect.isLog, PyExc.chain, PyExc.plain] <;>
      (try linarith)
    all_goals
      (try split_ifs at *) <;>
        (try injections) <;>
        subst_vars <;>
        (first | rfl | simp [raisedKind, Effect.isLog])

/-- Python banker's rounding moves a value by at most one half. -/
theorem abs_pyRound_sub_le (x : ℚ) : |(pyRound x : ℚ) - x| ≤ 1 / 2 := by
  have h1 : (⌊x⌋ : ℚ) ≤ x := Int.floor_le x
  have h2 : x < ⌊x⌋ + 1 := Int.lt_floor_add_one x
  simp only [pyRound]
  split_ifs with ha hb hc <;> rw [abs_le] <;> push_cast <;> constructor <;>
    linarith

/-- `round(x, 2)` moves a value by at most 1/200. -/
theorem abs_round2_sub_le (x : ℚ) : |round2 x - x| ≤ 1 / 200 := by
  have h := abs_pyRound_sub_le (x * 100)
  unfold round2
  have hs : (pyRound (x * 100) : ℚ) / 100 - x
      = ((pyRound (x * 100) : ℚ) - x * 100) / 100 := by
    ring
  rw [hs, abs_div]
  rw [abs_of_pos (by norm_num : (0:ℚ) < 100)]
  linarith

/-- Filtering epochs through a rejection mask never increases their count. -/
theorem keepByMask_length_le {α : Type} (xs : List α) (bs : List Bool) :
    (keepByMask xs bs).length ≤ xs.length := by
  induction xs generalizing bs with
  | nil => simp [keepByMask]
  | cons x xs ih =>
    cases bs with
    | nil => simp [keepByMask]
    | cons b bs =>
      cases b <;> simp [keepByMask] <;> exact Nat.le_trans (ih bs) (by omega)

/-- A successfully classified vertex keeps its vertex id in its row. -/
theorem processVertex_vertex_eq (mode : String) (fg : FitOutcome) (i v : Nat)
    (row : FooofRow) (h : processVertex mode fg i v = .ok row) :
    row.vertex = v := by
  unfold processVertex at h
  repeat' split at h
  all_goals first
  | (injection h with h2
     subst h2
     rfl)
  | simp_all

/-- The extraction loop yields exactly one row per vertex, in order. -/
theorem extractRows_ok (mode : String) (fg : FitOutcome) :
    ∀ (i : Nat) (vs : List Nat) (rows : List FooofRow),
      extractRows mode fg i vs = .ok rows →
      rows.map (fun r => r.vertex) = vs := by
  intro i vs
  induction vs generalizing i with
  | nil => intro rows h; simp [extractRows] at h; simp [← h]
  | cons v rest ih =>
    intro rows h
    unfold extractRows at h
    rcases hv : processVertex mode fg i v with e | row
    · rw [hv] at h; exact absurd h (by simp)
    · rw [hv] at h
      rcases hr : extractRows mode fg (i + 1) rest with e | rows2
      · rw [hr] at h; exact absurd h (by simp)
      · rw [hr] at h
        simp only [Except.ok.injEq] at h
        subst h
        simp only [List.map_cons]
        rw [processVertex_vertex_eq mode fg i v row hv, ih (i + 1) rows2 hr]

/-! ## Claim theorems -/

/-- C1 (amended): delegated-computation failures are wrapped in a chained
RuntimeError by the FOOOF aperiodic step (for both of its delegated calls),
but the zapline step catches them, logs an error, and returns the original
input; only a BlockDependencyError propagates out of zapline, and it does so
unwrapped. -/
theorem claim_C1 :
    (∀ (host : FooofHost) (stcArg : Option FooofInput) (s : StcData)
        (fmin fmax : ℚ) (nJobs : Int) (mode : String)
        (psdCalc : StcData → ℚ → ℚ → Int → Option String → String →
          Except PyExc (StcData × String))
        (fooofCalc : StcData → String → Option String → Int → String →
          Except PyExc (List FooofRow × String))
        (e : PyExc),
      host.hasCheckStep = false ∨ host.enabled = true →
      stcArg.orElse (fun _ => host.stc) = some (.stcVal s) →
      (∀ a b c d f g, psdCalc a b c d f g = .error e) →
      (applyFooofAperiodic host stcArg fmin fmax nJobs mode psdCalc
          fooofCalc).1
        = .error (PyExc.chain .runtimeError
            ("Failed to calculate FOOOF aperiodic: " ++ e.msg) e) ∧
      (applyFooofAperiodic host stcArg fmin fmax nJobs mode psdCalc
          fooofCalc).2.any Effect.isErrorLog = true) ∧
    (∀ (host : FooofHost) (stcArg : Option FooofInput) (s sp : StcData)
        (pp : String) (fmin fmax : ℚ) (nJobs : Int) (mode : String)
        (psdCalc : StcData → ℚ → ℚ → Int → Option String → String →
          Except PyExc (StcData × String))
        (fooofCalc : StcData → String → Option String → Int → String →
          Except PyExc (List FooofRow × String))
        (e : PyExc),
      host.hasCheckStep = false ∨ host.enabled = true →
      stcArg.orElse (fun _ => host.stc) = some (.stcVal s) →
      (∀ a b c d f g, psdCalc a b c d f g = .ok (sp, pp)) →
      (∀ a b c d f, fooofCalc a b c d f = .error e) →
      (applyFooofAperiodic host stcArg fmin fmax nJobs mode psdCalc
          fooofCalc).1
        = .error (PyExc.chain .runtimeError
            ("Failed to calculate FOOOF aperiodic: " ++ e.msg) e)) ∧
    (∀ (host : ZaplineHost) (data : Option RawData) (stage : String)
        (clnp : RawData → ℚ → Except PyExc (ℚ × ℚ))
        (dss : RawData → ℚ → Int → Bool → Int →
          Except PyExc (RawData × ZapInfo))
        (r : RawData) (e : PyExc),
      host.enabled = true →
      data.orElse (fun _ => host.raw) = some r →
      orFalsyQ (host.settings.getD ⟨none, none, none, none⟩).fline 60
        < r.sfreq / 2 →
      ¬ r.nchan < 2 →
      (∀ a b c d f, dss a b c d f = .error e) →
      e.kind ≠ .blockDependencyError →
      (applyZapline host data stage clnp dss).1 = .ok (some r) ∧
      (applyZapline host data stage clnp dss).2.any Effect.isErrorLog
        = true) ∧
    (∀ (host : ZaplineHost) (data : Option RawData) (stage : String)
        (clnp : RawData → ℚ → Except PyExc (ℚ × ℚ))
        (dss : RawData → ℚ → Int → Bool → Int →
          Except PyExc (RawData × ZapInfo))
        (r : RawData) (e : PyExc),
      host.enabled = true →
      data.orElse (fun _ => host.raw) = some r →
      orFalsyQ (host.settings.getD ⟨none, none, none, none⟩).fline 60
        < r.sfreq / 2 →
      ¬ r.nchan < 2 →
      (∀ a b c d f, dss a b c d f = .error e) →
      e.kind = .blockDependencyError →
      (applyZapline host data stage clnp dss).1 = .error e) :=
  ⟨fooof_psd_failure_wrapped, fooof_fit_failure_wrapped,
    zapline_dss_failure_swallowed, zapline_blockdep_propagates⟩

def zapTestRaw : RawData := ⟨64, 500, [[0]]⟩

def zapTestHost : ZaplineHost := ⟨some zapTestRaw, true, none⟩

def zapOkClnp : RawData → ℚ → Except PyExc (ℚ × ℚ) := fun _ _ => .ok (12, 3)

def zapFailDss : RawData → ℚ → Int → Bool → Int →
    Except PyExc (RawData × ZapInfo) :=
  fun _ _ _ _ _ => .error (.plain .valueError "dss_line failed")

/-- C1 counterexample: an enabled zapline invocation whose delegated DSS
call raises a ValueError returns the original raw object normally — no
RuntimeError (nor any exception) is raised, so the step swallows the
failure, contrary to the claim. -/
theorem claim_C1_counterexample :
    (applyZapline zapTestHost (some zapTestRaw) "post_zapline" zapOkClnp
        zapFailDss).1 = .ok (some zapTestRaw) ∧
    raisedKind (applyZapline zapTestHost (some zapTestRaw) "post_zapline"
        zapOkClnp zapFailDss).1 = none := by
  constructor
  · norm_num [applyZapline, orFalsyQ, orFalsyI, zapTestHost, zapTestRaw,
      zapOkClnp, zapFailDss, PyExc.plain]
    rfl
  · norm_num [applyZapline, orFalsyQ, orFalsyI, zapTestHost, zapTestRaw,
      zapOkClnp, zapFailDss, PyExc.plain, raisedKind]
    rfl

/-- C2 (amended): a disabled step performs no file I/O, no external call and
no host mutation, and returns its documented disabled value — which is the
`(None, None)` sentinel for the FOOOF aperiodic step and `None` for
AutoReject, but the original input object for zapline and wavelet
thresholding. -/
theorem claim_C2 :
    (∀ (host : ZaplineHost) (data : Option RawData) (stage : String)
        (clnp : RawData → ℚ → Except PyExc (ℚ × ℚ))
        (dss : RawData → ℚ → Int → Bool → Int →
          Except PyExc (RawData × ZapInfo))
        (r : RawData),
      host.enabled = false →
      data.orElse (fun _ => host.raw) = some r →
      applyZapline host data stage clnp dss
        = (.ok (some r), [.log "info" "Zapline disabled in configuration"])) ∧
    (∀ (host : WaveletHost) (data : Option RawData) (stage : String)
        (wt : RawData → Except PyExc RawData) (report : Except PyExc Unit)
        (r : RawData),
      host.enabled = false →
      data.orElse (fun _ => host.raw) = some r →
      applyWaveletThreshold host data stage wt report
        = (.ok (some r),
            [.log "info" "Wavelet thresholding disabled in configuration"])) ∧
    (∀ (host : FooofHost) (stcArg : Option FooofInput)
        (fmin fmax : ℚ) (nJobs : Int) (mode : String)
        (psdCalc : StcData → ℚ → ℚ → Int → Option String → String →
          Except PyExc (StcData × String))
        (fooofCalc : StcData → String → Option String → Int → String →
          Except PyExc (List FooofRow × String)),
      host.hasCheckStep = true → host.enabled = false →
      applyFooofAperiodic host stcArg fmin fmax nJobs mode psdCalc fooofCalc
        = (.ok none, [.log "info" "FOOOF aperiodic step is disabled"])) ∧
    (∀ (host : ARHost) (epochsArg : Option ARInput)
        (ni : Option (List Int)) (cons : Option (List ℚ)) (nJobs : Int)
        (stage : String) (badMask : List Bool) (fitRaises : Option PyExc)
        (report : Except PyExc Unit),
      host.enabled = false →
      applyAutoreject host epochsArg ni cons nJobs stage badMask fitRaises
          report
        = (.ok none,
            [.log "info" "AutoReject step is disabled in configuration"])) :=
  ⟨zapline_disabled_returns_input, wavelet_disabled_returns_input,
    fooof_disabled_returns_sentinel, autoreject_disabled_returns_sentinel⟩

def zapDisabledHost : ZaplineHost := ⟨some zapTestRaw, false, none⟩

/-- C2 counterexample: a disabled zapline invocation with raw data available
returns that raw object, not the `None` sentinel the claim documents. -/
theorem claim_C2_counterexample :
    applyZapline zapDisabledHost none "post_zapline" zapOkClnp zapFailDss
      = (.ok (some zapTestRaw),
          [.log "info" "Zapline disabled in configuration"]) ∧
    (Except.ok (some zapTestRaw) : Except PyExc (Option RawData))
      ≠ .ok none := by
  constructor
  · rfl
  · simp

/-- C3 (amended): with no explicit input and no fallback attribute, the
FOOOF aperiodic step raises the documented AttributeError with no side
effects, but zapline and wavelet thresholding merely log a warning and
return `None` without raising. -/
theorem claim_C3 :
    (∀ (host : FooofHost) (fmin fmax : ℚ) (nJobs : Int) (mode : String)
        (psdCalc : StcData → ℚ → ℚ → Int → Option String → String →
          Except PyExc (StcData × String))
        (fooofCalc : StcData → String → Option String → Int → String →
          Except PyExc (List FooofRow × String)),
      host.hasCheckStep = false ∨ host.enabled = true →
      host.stc = none →
      applyFooofAperiodic host none fmin fmax nJobs mode psdCalc fooofCalc
        = (.error (.plain .attributeError
            "No source estimates found. Apply source localization first (self.stc must exist)."),
          [])) ∧
    (∀ (host : ZaplineHost) (stage : String)
        (clnp : RawData → ℚ → Except PyExc (ℚ × ℚ))
        (dss : RawData → ℚ → Int → Bool → Int →
          Except PyExc (RawData × ZapInfo)),
      host.raw = none →
      applyZapline host none stage clnp dss
        = (.ok none,
            [.log "warning" "Zapline skipped: no raw data available"])) ∧
    (∀ (host : WaveletHost) (stage : String)
        (wt : RawData → Except PyExc RawData) (report : Except PyExc Unit),
      host.raw = none →
      applyWaveletThreshold host none stage wt report
        = (.ok none,
            [.log "warning"
              "Wavelet thresholding skipped: no raw data available"])) :=
  ⟨fooof_missing_stc_raises, zapline_missing_raw_returns_none,
    wavelet_missing_raw_returns_none⟩

def zapNoDataHost : ZaplineHost := ⟨none, true, none⟩

/-- C3 counterexample: an enabled zapline call with no explicit data and no
`self.raw` returns `None` after a warning — no AttributeError (nor any
exception) is raised, contrary to the claim. -/
theorem claim_C3_counterexample :
    applyZapline zapNoDataHost none "post_zapline" zapOkClnp zapFailDss
      = (.ok none,
          [.log "warning" "Zapline skipped: no raw data available"]) ∧
    raisedKind (applyZapline zapNoDataHost none "post_zapline" zapOkClnp
        zapFailDss).1 = none := by
  constructor
  · rfl
  · rfl

/-- C4: an enabled zapline invocation on data with fewer than 2 channels
returns the original input, logs an error-level line, performs only logging
(no external call, file write or host mutation), and raises no exception. -/
theorem claim_C4 (host : ZaplineHost) (data : Option RawData) (stage : String)
    (clnp : RawData → ℚ → Except PyExc (ℚ × ℚ))
    (dss : RawData → ℚ → Int → Bool → Int → Except PyExc (RawData × ZapInfo))
    (r : RawData)
    (h1 : host.enabled = true)
    (h2 : data.orElse (fun _ => host.raw) = some r)
    (h3 : r.nchan < 2) :
    (applyZapline host data stage clnp dss).1 = .ok (some r) ∧
    (applyZapline host data stage clnp dss).2.any Effect.isErrorLog = true ∧
    (applyZapline host data stage clnp dss).2.all Effect.isLog = true := by
  unfold applyZapline
  rw [h2]
  dsimp only
  rw [h1]
  simp only [Bool.true_eq_false, if_false]
  split_ifs <;> simp_all [Effect.isErrorLog, Effect.isLog]

def c4Raw : RawData := ⟨1, 500, [[0]]⟩

def c4Host : ZaplineHost := ⟨some c4Raw, true, none⟩

/-- C4 witness: a concrete single-channel invocation. -/
theorem claim_C4_witness :
    (applyZapline c4Host (some c4Raw) "post_zapline" zapOkClnp
        zapFailDss).1 = .ok (some c4Raw) ∧
    (applyZapline c4Host (some c4Raw) "post_zapline" zapOkClnp
        zapFailDss).2.any Effect.isErrorLog = true ∧
    (applyZapline c4Host (some c4Raw) "post_zapline" zapOkClnp
        zapFailDss).2.all Effect.isLog = true :=
  claim_C4 c4Host (some c4Raw) "post_zapline" zapOkClnp zapFailDss c4Raw
    rfl rfl (by decide)

/-- C5: a successful AutoReject run on non-empty epochs keeps at most as
many epochs as it was given, and the rejection percentage it records equals
(before − after) / before · 100 up to the round-to-2-decimals error of at
most 1/200. -/
theorem claim_C5 (host : ARHost) (es : List EpochItem)
    (ni : Option (List Int)) (cons : Option (List ℚ)) (nJobs : Int)
    (stage : String) (badMask : List Bool) (report : Except PyExc Unit)
    (h1 : host.enabled = true)
    (h2 : es ≠ []) :
    ∃ clean meta effs,
      applyAutoreject host (some (.epochsVal es)) ni cons nJobs stage badMask
          none report
        = (.ok (some (clean, meta)), effs) ∧
      meta.final_epochs ≤ meta.initial_epochs ∧
      meta.initial_epochs = es.length ∧
      |meta.rejection_percent -
        ((meta.initial_epochs : ℚ) - (meta.final_epochs : ℚ))
          / (meta.initial_epochs : ℚ) * 100| ≤ 1 / 200 := by
  unfold applyAutoreject
  rw [h1]
  simp only [Bool.true_eq_false, if_false]
  refine ⟨keepByMask es badMask, _, _, rfl, ?_, rfl, ?_⟩
  · exact keepByMask_length_le es badMask
  · have hpos : 0 < es.length := List.length_pos.mpr h2
    rw [if_pos hpos]
    have hx : (Int.cast ((es.length : ℤ)
          - ((keepByMask es badMask).length : ℤ)) : ℚ)
        = (es.length : ℚ) - ((keepByMask es badMask).length : ℚ) := by
      push_cast
      ring
    rw [hx]
    exact abs_round2_sub_le _

def arWitnessHost : ARHost := ⟨true, none, none, false⟩

/-- C5 witness: a concrete one-epoch run with nothing rejected. -/
theorem claim_C5_witness :
    ∃ clean meta effs,
      applyAutoreject arWitnessHost (some (.epochsVal [[1]])) none none 1
          "apply_autoreject" [false] none (.ok ())
        = (.ok (some (clean, meta)), effs) ∧
      meta.final_epochs ≤ meta.initial_epochs ∧
      meta.initial_epochs = ([[1]] : List EpochItem).length ∧
      |meta.rejection_percent -
        ((meta.initial_epochs : ℚ) - (meta.final_epochs : ℚ))
          / (meta.initial_epochs : ℚ) * 100| ≤ 1 / 200 :=
  claim_C5 arWitnessHost [[1]] none none 1 "apply_autoreject" [false]
    (.ok ()) rfl (by simp)

/-- C6: an enabled wavelet-threshold invocation with data available raises a
validation ValueError before any external call, file write or host mutation
when the configured bandpass pair has low ≥ high, and likewise when the
configured threshold scale is ≤ 0. -/
theorem claim_C6 :
    (∀ (host : WaveletHost) (data : Option RawData) (stage : String)
        (wt : RawData → Except PyExc RawData) (report : Except PyExc Unit)
        (r : RawData) (low high : ℚ),
      host.enabled = true →
      data.orElse (fun _ => host.raw) = some r →
      (host.settings.getD
          ⟨none, none, none, none, none, none, none, none⟩).bandpass.getD
          (.pair 1 30) = .pair low high →
      high ≤ low →
      raisedKind (applyWaveletThreshold host data stage wt report).1
        = some .valueError ∧
      (applyWaveletThreshold host data stage wt report).2.all Effect.isLog
        = true) ∧
    (∀ (host : WaveletHost) (data : Option RawData) (stage : String)
        (wt : RawData → Except PyExc RawData) (report : Except PyExc Unit)
        (r : RawData) (scale : ℚ),
      host.enabled = true →
      data.orElse (fun _ => host.raw) = some r →
      (host.settings.getD
          ⟨none, none, none, none, none, none, none,
            none⟩).threshold_scale.getD (.num 1) = .num scale →
      scale ≤ 0 →
      raisedKind (applyWaveletThreshold host data stage wt report).1
        = some .valueError ∧
      (applyWaveletThreshold host data stage wt report).2.all Effect.isLog
        = true) :=
  ⟨wavelet_bandpass_guard, wavelet_scale_guard⟩

/-- C7 (amended): whenever a FOOOF aperiodic batch is processed without an
uncaught exception, it yields exactly one row per vertex, each carrying one
of the five categorical statuses SUCCESS, NAN_PARAMS, INVALID_PARAMS,
INVALID_EXPONENT or FITTING_FAILED; and when both fitting attempts raise,
the batch returns FITTING_FAILED rows rather than an exception. -/
theorem claim_C7 :
    (∀ (mode : String) (vertices : List Nat)
        (primary fallback : Except PyExc FitOutcome) (rows : List FooofRow),
      processBatch mode vertices primary fallback = .ok rows →
        rows.map (fun r => r.vertex) = vertices ∧
        ∀ r ∈ rows, r.status ∈
          [FitStatus.SUCCESS, FitStatus.NAN_PARAMS, FitStatus.INVALID_PARAMS,
            FitStatus.INVALID_EXPONENT, FitStatus.FITTING_FAILED]) ∧
    (∀ (mode : String) (vertices : List Nat) (e1 e2 : PyExc),
      processBatch mode vertices (.error e1) (.error e2)
        = .ok (vertices.map dummyFailedRow) ∧
      ∀ r ∈ vertices.map dummyFailedRow,
        r.status = FitStatus.FITTING_FAILED) := by
  constructor
  · intro mode vertices primary fallback rows h
    refine ⟨?_, ?_⟩
    · unfold processBatch at h
      rcases primary with e | fg
      · rcases fallback with e2 | fg2
        · simp at h
          rw [← h]
          simp [dummyFailedRow, Function.comp_def]
        · exact extractRows_ok mode fg2 0 vertices rows (by simpa using h)
      · by_cases hz : anyOffsetFalsy fg = true
        · rcases fallback with e2 | fg2
          · simp [hz] at h
            rw [← h]
            simp [dummyFailedRow, Function.comp_def]
          · exact extractRows_ok mode fg2 0 vertices rows
              (by simpa [hz] using h)
        · exact extractRows_ok mode fg 0 vertices rows
            (by simpa [hz] using h)
    · intro r hr
      cases hsr : r.status <;> simp
  · intro mode vertices e1 e2
    constructor
    · simp [processBatch]
    · intro r hr
      simp [dummyFailedRow] at hr
      rcases hr with ⟨v, hv, hrw⟩
      rw [← hrw]

def fixedModeFit : FitOutcome := ⟨[[.fin 1, .fin (-1)]], [.fin 1], [.fin 0]⟩

/-- C7 counterexample: in fixed mode a finite fit with a non-positive
exponent is tagged INVALID_EXPONENT, a fifth status outside the claimed
four-element set. -/
theorem claim_C7_counterexample :
    processBatch "fixed" [0] (.ok fixedModeFit) (.ok fixedModeFit)
      = .ok [⟨0, .nanV, .nanV, .nanV, .nanV, .nanV, .INVALID_EXPONENT⟩] ∧
    FitStatus.INVALID_EXPONENT ∉
      [FitStatus.SUCCESS, FitStatus.NAN_PARAMS, FitStatus.INVALID_PARAMS,
        FitStatus.FITTING_FAILED] := by
  constructor
  · decide
  · decide

/-- C8: with no explicit argument, `apply_source_psd` probes
`self.source_eeg`, then `self.stc_list`, then `self.stc`, uses the first
that is present and not None, and raises the documented AttributeError only
when all three are absent. -/
theorem claim_C8 :
    (∀ (host : PsdHost) (v : SourceData), host.source_eeg = some v →
      resolveSourcePsdInput host none = .ok (v, true)) ∧
    (∀ (host : PsdHost) (v : SourceData), host.source_eeg = none →
      host.stc_list = some v → v.isStcType = true →
      resolveSourcePsdInput host none = .ok (v, false)) ∧
    (∀ (host : PsdHost) (v : SourceData), host.source_eeg = none →
      host.stc_list = none → host.stc = some v → v.isStcType = true →
      resolveSourcePsdInput host none = .ok (v, false)) ∧
    (∀ host : PsdHost, host.source_eeg = none → host.stc_list = none →
      host.stc = none →
      resolveSourcePsdInput host none = .error (.plain .attributeError
        "No source data found. Apply source localization first (v2.0.1: self.source_eeg, or v1.0.0: self.stc/self.stc_list must exist).")) := by
  refine ⟨?_, ?_, ?_, ?_⟩
  · intro host v h1
    simp [resolveSourcePsdInput, h1]
  · intro host v h1 h2 h3
    simp [resolveSourcePsdInput, h1, h2, h3]
  · intro host v h1 h2 h3 h4
    simp [resolveSourcePsdInput, h1, h2, h3, h4]
  · intro host h1 h2 h3
    simp [resolveSourcePsdInput, h1, h2, h3]

/-- C10: `apply_zapline_dss` never mutates the input raw object: on every
path — import failure, channel-count or Nyquist validation failure, or a
successful cleaning written into a fresh copy — the heap cell of the input
object is unchanged. -/
theorem claim_C10 (h : List RawData) (rawId : Nat) (fline : ℚ) (nkeep : Int)
    (useIter : Bool) (maxIter : Int) (mOk : Bool)
    (dl : List (List ℚ) → ℚ → ℚ → Int → List (List ℚ))
    (dli : List (List ℚ) → ℚ → ℚ → Int → List (List ℚ) × Int)
    (hid : rawId < h.length) :
    ((applyZaplineDss h rawId fline nkeep useIter maxIter mOk dl
        dli).1).get? rawId = h.get? rawId := by
  unfold applyZaplineDss
  rcases hg : h.get? rawId with _ | raw
  · exact absurd (List.get?_eq_none.mp hg) (by omega)
  · by_cases hm : mOk = false
    · rw [if_pos hm]
      exact hg
    · rw [if_neg hm]
      dsimp only
      by_cases hc : raw.nchan < 2
      · rw [if_pos hc]
        exact hg
      · rw [if_neg hc]
        by_cases hf : raw.sfreq / 2 ≤ fline
        · rw [if_pos hf]
          exact hg
        · rw [if_neg hf]
          simp only []
          rw [heapSetPayload_lookup_ne (by omega), List.get?_append hid]
          exact hg

def c10Heap : List RawData := [⟨2, 500, [[1], [2]]⟩]

def c10dl : List (List ℚ) → ℚ → ℚ → Int → List (List ℚ) := fun d _ _ _ => d

def c10dli : List (List ℚ) → ℚ → ℚ → Int → List (List ℚ) × Int :=
  fun d _ _ _ => (d, 3)

/-- C10 witness: a concrete two-channel cleaning run. -/
theorem claim_C10_witness :
    ((applyZaplineDss c10Heap 0 60 1 false 10 true c10dl c10dli).1).get? 0
      = c10Heap.get? 0 :=
  claim_C10 c10Heap 0 60 1 false 10 true c10dl c10dli (by decide)

end TaskRegistry
